import Mathlib

/-!
Verification of the NanoBook repository (a RAG research assistant with a
Next.js frontend and a Flask/Qdrant backend) against its natural-language
specification.  The frontend TypeScript under nanobook-frontend/app is
embedded faithfully below: the wire types of app/Utils/types.ts, the API
client of app/(services)/api.ts, and the page.tsx handlers as explicit
state transitions that also log the backend calls they issue.  The backend
Python (nanobook-backend/src) is absent from the sources; where a claim
needs it, a definition modelled from the spec stands in and is marked as
such in its doc comment.
-/

namespace NanoBook

/-- Message roles, from the Role enum in app/Utils/types.ts
(USER maps to the string value user, model to model). -/
inductive Role where
  | USER
  | model
deriving DecidableEq, Repr

/-- A displayed chat message, from the Message interface in app/Utils/types.ts. -/
structure Message where
  id : String
  role : Role
  content : String
  timestamp : Nat
deriving DecidableEq, Repr

/-- A locally tracked uploaded source, from the Source interface in app/Utils/types.ts. -/
structure Source where
  id : String
  name : String
  content : String
  type : String
  size : Nat
  uploadDate : Nat
deriving DecidableEq, Repr

/-- One history element of a chat request, from the MessageHistoryItem
interface in app/Utils/types.ts: a role string and a list of text parts. -/
structure MessageHistoryItem where
  role : String
  parts : List String
deriving DecidableEq, Repr

/-- The body POSTed to the chat endpoint, from the ChatRequest interface
in app/Utils/types.ts. -/
structure ChatRequest where
  user_query : String
  history : List MessageHistoryItem
deriving DecidableEq, Repr

/-- The chat endpoint response as declared by the frontend, from the
ChatResponse interface in app/Utils/types.ts: a single response string. -/
structure ChatResponse where
  response : String
deriving DecidableEq, Repr

/-- The upload endpoint response as declared by the frontend, from the
UploadResponse interface in app/Utils/types.ts. -/
structure UploadResponse where
  message : String
  filename : Option String
deriving DecidableEq, Repr

/-- The field names of the MessageHistoryItem interface in app/Utils/types.ts. -/
def MessageHistoryItem.fields : List String := [("role"), ("parts")]

/-- The field names of the ChatRequest interface in app/Utils/types.ts. -/
def ChatRequest.fields : List String := [("user_query"), ("history")]

/-- The field names of the ChatResponse interface in app/Utils/types.ts. -/
def ChatResponse.fields : List String := [("response")]

/-- The field names of the UploadResponse interface in app/Utils/types.ts. -/
def UploadResponse.fields : List String := [("message"), ("filename")]

/-- The documented body of the reset endpoint response, from the README
(a message string only); the client never reads it. -/
structure ResetBody where
  message : String
deriving DecidableEq, Repr

/-- The outcome of one fetch call as the client observes it: the ok flag,
the status text, and the body already decoded at the type the client
declares for it. -/
structure HttpResponse (α : Type) where
  ok : Bool
  statusText : String
  body : α
deriving Repr

/-- The sendChatMessage client of app/(services)/api.ts: POSTs the payload
to the chat endpoint, throws a Chat API error when the response is not ok,
and otherwise returns the parsed JSON body. -/
def sendChatMessage (payload : ChatRequest) (response : HttpResponse ChatResponse) :
    Except String ChatResponse :=
  if response.ok = false then
    Except.error ("Chat API error: " ++ response.statusText)
  else
    Except.ok response.body

/-- The uploadDocument client of app/(services)/api.ts: POSTs the file as
form data, throws an Upload API error when the response is not ok, and
otherwise returns the parsed JSON body. -/
def uploadDocument (response : HttpResponse UploadResponse) :
    Except String UploadResponse :=
  if response.ok = false then
    Except.error ("Upload API error: " ++ response.statusText)
  else
    Except.ok response.body

/-- The resetSources client of app/(services)/api.ts: issues DELETE on the
reset endpoint, throws a Reset API error when the response is not ok, and
otherwise returns nothing (the body is discarded, the TypeScript return
type is a promise of void). -/
def resetSources (response : HttpResponse ResetBody) : Except String Unit :=
  if response.ok = false then
    Except.error ("Reset API error: " ++ response.statusText)
  else
    Except.ok ()

/-- A record of the vector collection, modelled from the spec data model:
chunk id, embedding, chunk text and document metadata for citation.  The
collection itself lives in the backend (nanobook-backend/src), which is
not among the sources. -/
structure VectorRecord where
  chunkId : Nat
  embedding : List Int
  text : List Char
  documentName : String
deriving DecidableEq, Repr

/-- A backend call issued by a frontend handler: a chat request, a file
upload, or a collection reset. -/
inductive ApiCall where
  | chat (req : ChatRequest)
  | upload (fileName : String)
  | reset
deriving DecidableEq, Repr

/-- Modelled from the spec: the backend endpoint semantics over the vector
collection (nanobook-backend/src/app.py is not among the sources).  A chat
call reads but never modifies the collection; an upload ingests one
document and appends its records; a reset clears the entire collection.
The ingest parameter gives the records produced for an uploaded file. -/
def applyCall (ingest : String → List VectorRecord) (c : List VectorRecord) :
    ApiCall → List VectorRecord
  | ApiCall.chat _ => c
  | ApiCall.upload fileName => c ++ ingest fileName
  | ApiCall.reset => []

/-- Folds applyCall over a list of issued backend calls. -/
def applyCalls (ingest : String → List VectorRecord) (c : List VectorRecord)
    (calls : List ApiCall) : List VectorRecord :=
  calls.foldl (applyCall ingest) c

/-- The localStorage key for persisted messages, from page.tsx. -/
def STORAGE_KEY_MESSAGES : String := "nanobook_messages"

/-- The localStorage key for persisted sources, from page.tsx. -/
def STORAGE_KEY_SOURCES : String := "nanobook_sources"

/-- The local client state managed by the Home component of page.tsx: the
displayed messages, the tracked sources, the input box content, and the
browser localStorage entries. -/
structure AppState where
  messages : List Message
  sources : List Source
  inputValue : String
  store : List (String × String)
deriving DecidableEq, Repr

/-- A string is blank when every character is whitespace; this is the test
the guard of handleSendMessage performs, since the JavaScript expression
negating inputValue.trim() is truthy exactly on all-whitespace input. -/
def isBlank (s : String) : Bool :=
  s.data.all Char.isWhitespace

/-- The history element built for one displayed message inside
handleSendMessage of page.tsx: the role USER maps to the string user and
any other role to model, and the content is wrapped as a one-element
parts list. -/
def toHistoryItem (msg : Message) : MessageHistoryItem :=
  { role := if msg.role = Role.USER then ("user") else ("model"),
    parts := [msg.content] }

/-- The chat request built inside handleSendMessage of page.tsx: the
current input as user_query and the messages displayed before this turn,
mapped in order through toHistoryItem, as history. -/
def mkChatRequest (st : AppState) : ChatRequest :=
  { user_query := st.inputValue,
    history := st.messages.map toHistoryItem }

/-- The fallback text the handleSendMessage catch branch of page.tsx shows
when the chat call fails. -/
def errorFallbackText : String :=
  "I encountered an error while processing your request. Please check your connection and try again."

/-- The handleSendMessage handler of page.tsx as a state transition.  When
the input is blank it does nothing.  Otherwise it appends the user turn,
sends the chat request built from the pre-send state, clears the input,
and appends a model turn holding either the response text or, when
sendChatMessage threw, the fallback text.  The second component logs the
backend call issued; now stands for the Date.now clock reading. -/
def handleSendMessage (st : AppState) (resp : HttpResponse ChatResponse) (now : Nat) :
    AppState × List ApiCall :=
  if isBlank st.inputValue then (st, [])
  else
    let currentQuery := st.inputValue
    let userMessage : Message :=
      { id := toString now, role := Role.USER, content := currentQuery, timestamp := now }
    let newMessages := st.messages ++ [userMessage]
    let req := mkChatRequest st
    let aiMessage : Message :=
      match sendChatMessage req resp with
      | Except.ok r =>
          { id := toString (now + 1), role := Role.model, content := r.response, timestamp := now }
      | Except.error _ =>
          { id := toString (now + 1), role := Role.model, content := errorFallbackText,
            timestamp := now }
    ({ st with messages := newMessages ++ [aiMessage], inputValue := "" },
     [ApiCall.chat req])

/-- One file selected for upload: name, media type and byte size, the
fields of the browser File object that page.tsx reads. -/
structure FileInfo where
  name : String
  type : String
  size : Nat
deriving DecidableEq, Repr

/-- The per-file outcome record produced inside handleFileUpload of
page.tsx: whether this file uploaded successfully, and its name. -/
structure UploadResult where
  success : Bool
  name : String
deriving DecidableEq, Repr

/-- The body of one mapped upload promise in handleFileUpload of page.tsx:
a resolved uploadDocument call yields a success record, a thrown error is
caught and yields a failure record for the same file. -/
def fileOutcomeToResult (file : FileInfo) (outcome : Except String UploadResponse) :
    UploadResult :=
  match outcome with
  | Except.ok _ => { success := true, name := file.name }
  | Except.error _ => { success := false, name := file.name }

/-- The source entry handleFileUpload of page.tsx appends for one
successfully uploaded file: a fresh random id, the file name, the
returned filename (or the file name when absent) as content, the media
type with an octet-stream default for an empty type, and the size. -/
def mkNewSource (file : FileInfo) (resp : UploadResponse) (rid : String) (now : Nat) :
    Source :=
  { id := rid,
    name := file.name,
    content := resp.filename.getD file.name,
    type := if file.type = "" then ("application/octet-stream") else file.type,
    size := file.size,
    uploadDate := now }

/-- The handleFileUpload handler of page.tsx.  Each selected file is paired
with the outcome of its own uploadDocument call; every file is submitted
regardless of the other outcomes, each produces one per-file result, and
the successful ones append a source entry (rids supplies the generated
random ids).  The last component logs one upload call per file. -/
def handleFileUpload (st : AppState) (files : List (FileInfo × Except String UploadResponse))
    (rids : List String) (now : Nat) :
    AppState × List UploadResult × List ApiCall :=
  let results := files.map (fun fo => fileOutcomeToResult fo.1 fo.2)
  let newSources := (files.zip rids).filterMap (fun x =>
    match x.1.2 with
    | Except.ok r => some (mkNewSource x.1.1 r x.2 now)
    | Except.error _ => none)
  ({ st with sources := st.sources ++ newSources },
   results,
   files.map (fun fo => ApiCall.upload fo.1.name))

/-- The handleRemoveSource handler of page.tsx: filters the named id out of
the local source list and does nothing else; in particular it issues no
backend call. -/
def handleRemoveSource (st : AppState) (sid : String) : AppState × List ApiCall :=
  ({ st with sources := st.sources.filter (fun s => s.id ≠ sid) }, [])

/-- The handleReset handler of page.tsx.  When the user declines the
confirmation dialog nothing happens.  When confirmed, resetSources is
called and, in a finally block that runs whether or not it threw, the
messages and sources are emptied and both localStorage keys are removed.
The middle component logs the issued backend call and the last component
is the resetSources outcome, which still propagates after the cleanup. -/
def handleReset (st : AppState) (confirmed : Bool) (resp : HttpResponse ResetBody) :
    AppState × List ApiCall × Except String Unit :=
  if confirmed then
    ({ st with
        messages := [],
        sources := [],
        store := st.store.filter
          (fun kv => kv.1 ≠ STORAGE_KEY_MESSAGES ∧ kv.1 ≠ STORAGE_KEY_SOURCES) },
     [ApiCall.reset],
     resetSources resp)
  else (st, [], Except.ok ())

/-- Modelled from the spec: the Chunker lives in
nanobook-backend/src/ingest.py, which is not among the sources.  The spec
describes chunks of at most size characters taken left to right, each
consecutive pair overlapping by a fixed character count, covering the
entire input with no gaps, with one chunk for texts no longer than size
and none for empty text.  Here step is the distance between consecutive
chunk starts (size minus overlap) and fuel bounds the recursion; any fuel
exceeding the text length is enough. -/
def chunkTextAux (size step : Nat) : Nat → List Char → List (List Char)
  | 0, _ => []
  | fuel + 1, text =>
    if text.isEmpty then []
    else if text.length ≤ size then [text]
    else text.take size :: chunkTextAux size step fuel (text.drop step)

/-- Modelled from the spec: the Chunker entry point, splitting a document
text into chunks of at most size characters where consecutive chunks
overlap by overlap characters (defaults 500 and 100). -/
def chunkText (size overlap : Nat) (text : List Char) : List (List Char) :=
  chunkTextAux size (size - overlap) (text.length + 1) text

/-- Concatenation of a chunk list after removing the leading overlap of
every chunk, used to reassemble the tail chunks of a document. -/
def dropOverlap (overlap : Nat) (chunks : List (List Char)) : List Char :=
  (chunks.map (fun c => c.drop overlap)).flatten

/-- Reassembles a chunk sequence: the first chunk whole, every later chunk
with its leading overlap characters removed. -/
def reassemble (overlap : Nat) (chunks : List (List Char)) : List Char :=
  match chunks with
  | [] => []
  | c :: cs => c ++ dropOverlap overlap cs

/-- A list stands in pointwise relation with its own map whenever the
relation holds between every element and its image. -/
lemma forall2_map_self {α β : Type} (R : α → β → Prop) (f : α → β) (l : List α)
    (hf : ∀ a, R a (f a)) : List.Forall₂ R l (l.map f) := by
  induction l with
  | nil => exact List.Forall₂.nil
  | cons a t ih => exact List.Forall₂.cons (hf a) ih

/-- dropOverlap distributes over a cons. -/
lemma dropOverlap_cons (o : Nat) (a : List Char) (l : List (List Char)) :
    dropOverlap o (a :: l) = a.drop o ++ dropOverlap o l := by
  simp [dropOverlap]

/-- Reassembling the tail chunks of a text with the leading overlap of
every chunk removed yields the text without its first overlap characters,
for any sufficient fuel. -/
lemma dropOverlap_chunkTextAux (size overlap : Nat) (h : overlap < size) :
    ∀ fuel text, text.length < fuel →
      dropOverlap overlap (chunkTextAux size (size - overlap) fuel text)
        = text.drop overlap := by
  intro fuel
  induction fuel with
  | zero => intro text ht; exact absurd ht (Nat.not_lt_zero _)
  | succ n ih =>
    intro text ht
    by_cases he : text = []
    · subst he; simp [chunkTextAux, dropOverlap]
    · have he' : text.isEmpty = false := by simp [he]
      by_cases hle : text.length ≤ size
      · simp [chunkTextAux, he', hle, dropOverlap]
      · have hlen : 1 ≤ text.length := by
          cases text with
          | nil => exact absurd rfl he
          | cons a t => simp
        rw [chunkTextAux]
        simp only [he', Bool.false_eq_true, if_false, hle, List.length_nil]
        rw [dropOverlap_cons,
          ih (text.drop (size - overlap)) (by simp [List.length_drop]; omega)]
        rw [List.drop_take, List.drop_drop]
        rw [show size - overlap + overlap = size by omega]
        have hrw : List.drop size text = List.drop (size - overlap) (List.drop overlap text) := by
          rw [List.drop_drop, show overlap + (size - overlap) = size by omega]
        rw [hrw]
        exact List.take_append_drop (size - overlap) (text.drop overlap)

/-- C8: for every document, the chunks produced by the Chunker (modelled
from the spec, the backend ingest module being absent from the sources)
cover the whole text with no gaps: the first chunk followed by every later
chunk stripped of its leading overlap characters reconstructs the document
text exactly, whenever the overlap is smaller than the chunk size. -/
theorem C8_chunker_roundtrip (size overlap : Nat) (h : overlap < size) (text : List Char) :
    reassemble overlap (chunkText size overlap text) = text := by
  rw [chunkText]
  by_cases he : text = []
  · subst he; simp [chunkTextAux, reassemble]
  · have he' : text.isEmpty = false := by simp [he]
    by_cases hle : text.length ≤ size
    · simp [chunkTextAux, he', hle, reassemble, dropOverlap]
    · rw [chunkTextAux]
      simp only [he', Bool.false_eq_true, if_false, hle]
      rw [reassemble]
      rw [dropOverlap_chunkTextAux size overlap h text.length (text.drop (size - overlap))
        (by simp [List.length_drop]; omega)]
      rw [List.drop_drop]
      rw [show size - overlap + overlap = size by omega]
      exact List.take_append_drop size text

/-- C8 witness: the round trip at the default chunk size 500 and overlap
100 on a concrete document text. -/
theorem C8_chunker_roundtrip_witness :
    100 < 500
    ∧ reassemble 100 (chunkText 500 100
        (String.toList ("NanoBook splits documents into overlapping chunks.")))
      = String.toList ("NanoBook splits documents into overlapping chunks.") :=
  ⟨by decide, C8_chunker_roundtrip 500 100 (by decide) _⟩

/-- C1 counterexample: the chat response declared and consumed by the
frontend carries no sources field at all, so the claim that the query
result contains an ordered list of sources fails on the ChatResponse
interface of app/Utils/types.ts. -/
theorem C1_counterexample : ("sources") ∉ ChatResponse.fields := by decide

/-- C1 (amended): the Query operation, invoked per chat request, returns a
result whose single field is the answer string response; it carries no
sources list; and the response is not an echo of the request fields: no
request field name occurs among the response fields, on an ok response the
client returns exactly the parsed body, and the client result never
depends on the request payload. -/
theorem C1_chat_response_shape (payload payload2 : ChatRequest)
    (resp : HttpResponse ChatResponse) (hok : resp.ok = true) :
    ChatResponse.fields = [("response")]
    ∧ ("user_query") ∉ ChatResponse.fields
    ∧ ("history") ∉ ChatResponse.fields
    ∧ sendChatMessage payload resp = Except.ok resp.body
    ∧ sendChatMessage payload resp = sendChatMessage payload2 resp := by
  refine ⟨rfl, by decide, by decide, ?_, rfl⟩
  simp [sendChatMessage, hok]

/-- C1 witness: the amended response shape statement at a concrete ok
response. -/
theorem C1_chat_response_shape_witness :
    ChatResponse.fields = [("response")]
    ∧ ("user_query") ∉ ChatResponse.fields
    ∧ ("history") ∉ ChatResponse.fields
    ∧ sendChatMessage { user_query := "q", history := [] }
        { ok := true, statusText := "OK", body := { response := "ans" } }
      = Except.ok { response := "ans" }
    ∧ sendChatMessage { user_query := "q", history := [] }
        { ok := true, statusText := "OK", body := { response := "ans" } }
      = sendChatMessage { user_query := "other", history := [] }
        { ok := true, statusText := "OK", body := { response := "ans" } } :=
  C1_chat_response_shape _ _ _ rfl

/-- C2: the history of every chat request is an ordered list in one-to-one
order-preserving correspondence with the displayed messages, and every
element carries a role that is exactly user or model together with the
content of its turn as a single text string. -/
theorem C2_history_shape (st : AppState) :
    List.Forall₂ (fun msg item =>
      (item.role = ("user") ∨ item.role = ("model")) ∧ item.parts = [msg.content])
      st.messages (mkChatRequest st).history := by
  refine forall2_map_self _ _ _ ?_
  intro m
  refine ⟨?_, rfl⟩
  by_cases hm : m.role = Role.USER
  · left; simp [toHistoryItem, hm]
  · right; simp [toHistoryItem, hm]

/-- C3: a failure while processing one file of an upload batch does not
abort the others: the handler pairs every selected file, in order, with a
per-file result that names that file and reports exactly whether its own
outcome succeeded, and it submits one upload call per file. -/
theorem C3_batch_upload_isolation (st : AppState)
    (files : List (FileInfo × Except String UploadResponse))
    (rids : List String) (now : Nat) :
    List.Forall₂ (fun fo res =>
      res.name = fo.1.name ∧ (res.success = true ↔ fo.2.isOk = true))
      files (handleFileUpload st files rids now).2.1
    ∧ List.Forall₂ (fun fo call => call = ApiCall.upload fo.1.name)
      files (handleFileUpload st files rids now).2.2 := by
  constructor
  · refine forall2_map_self _ _ _ ?_
    intro fo
    cases ho : fo.2 <;> simp [fileOutcomeToResult, ho, Except.isOk, Except.toBool]
  · exact forall2_map_self _ _ _ (fun fo => rfl)

/-- C4: when the chat endpoint answers non-ok, the client raises a
structured Chat API error rather than returning any answer text, and the
user-facing fallback message is synthesized by the caller: the
handleSendMessage catch branch appends a model turn holding the fixed
fallback text. -/
theorem C4_generation_error (payload : ChatRequest) (st : AppState)
    (resp : HttpResponse ChatResponse) (now : Nat)
    (hok : resp.ok = false) (hin : isBlank st.inputValue = false) :
    sendChatMessage payload resp = Except.error ("Chat API error: " ++ resp.statusText)
    ∧ (handleSendMessage st resp now).1.messages
      = st.messages ++
        [{ id := toString now, role := Role.USER, content := st.inputValue,
           timestamp := now },
         { id := toString (now + 1), role := Role.model, content := errorFallbackText,
           timestamp := now }] := by
  constructor
  · simp [sendChatMessage, hok]
  · simp [handleSendMessage, hin, sendChatMessage, hok, mkChatRequest, List.append_assoc]

/-- C4 witness: the failure behaviour at a concrete non-ok response and a
concrete non-blank input. -/
theorem C4_generation_error_witness :
    (false : Bool) = false
    ∧ isBlank ("q") = false
    ∧ sendChatMessage { user_query := "q", history := [] }
        { ok := false, statusText := "Bad Gateway", body := { response := "" } }
      = Except.error ("Chat API error: " ++ "Bad Gateway")
    ∧ (handleSendMessage
        { messages := [], sources := [], inputValue := "q", store := [] }
        { ok := false, statusText := "Bad Gateway", body := { response := "" } } 7).1.messages
      = [] ++
        [{ id := toString 7, role := Role.USER, content := "q", timestamp := 7 },
         { id := toString (7 + 1), role := Role.model, content := errorFallbackText,
           timestamp := 7 }] := by
  refine ⟨rfl, by decide, ?_, ?_⟩
  · exact (C4_generation_error { user_query := "q", history := [] }
      { messages := [], sources := [], inputValue := "q", store := [] }
      { ok := false, statusText := "Bad Gateway", body := { response := "" } } 7
      rfl (by decide)).1
  · exact (C4_generation_error { user_query := "q", history := [] }
      { messages := [], sources := [], inputValue := "q", store := [] }
      { ok := false, statusText := "Bad Gateway", body := { response := "" } } 7
      rfl (by decide)).2

/-- C5 counterexample: the upload response declared and consumed by the
frontend carries neither a count of chunks indexed nor a list of failed
chunk indices, so the claim fails on the UploadResponse interface of
app/Utils/types.ts. -/
theorem C5_counterexample :
    ("chunks_indexed") ∉ UploadResponse.fields
    ∧ ("failed_chunk_indices") ∉ UploadResponse.fields :=
  ⟨by decide, by decide⟩

/-- C5 (amended): for a successfully uploaded document the upload
operation returns a message string and optionally the stored filename, and
nothing else: on an ok response the client returns exactly the parsed
two-field body. -/
theorem C5_upload_response (resp : HttpResponse UploadResponse) (hok : resp.ok = true) :
    UploadResponse.fields = [("message"), ("filename")]
    ∧ uploadDocument resp = Except.ok resp.body :=
  ⟨rfl, by simp [uploadDocument, hok]⟩

/-- C5 witness: the amended upload response statement at a concrete ok
response. -/
theorem C5_upload_response_witness :
    UploadResponse.fields = [("message"), ("filename")]
    ∧ uploadDocument
        { ok := true, statusText := "OK",
          body := { message := "File uploaded successfully", filename := some ("doc.pdf") } }
      = Except.ok { message := "File uploaded successfully", filename := some ("doc.pdf") } :=
  C5_upload_response _ rfl

/-- C6 counterexample: the client-visible result of the reset operation
carries no count of records cleared: two resets whose backend bodies
report different outcomes produce identical client results, namely the
unit value. -/
theorem C6_counterexample :
    resetSources { ok := true, statusText := "OK", body := { message := "cleared 5 records" } }
      = resetSources { ok := true, statusText := "OK", body := { message := "cleared 7 records" } }
    ∧ resetSources { ok := true, statusText := "OK", body := { message := "cleared 5 records" } }
      = Except.ok () :=
  ⟨rfl, rfl⟩

/-- C6 (amended): the Reset operation clears the entire vector collection
(backend semantics modelled from the spec) but returns no count of records
cleared: on an ok response the client receives only the unit value. -/
theorem C6_reset (ingest : String → List VectorRecord) (c : List VectorRecord)
    (resp : HttpResponse ResetBody) (hok : resp.ok = true) :
    applyCall ingest c ApiCall.reset = []
    ∧ resetSources resp = Except.ok () :=
  ⟨rfl, by simp [resetSources, hok]⟩

/-- C6 witness: the amended reset statement on a concrete non-empty
collection and a concrete ok response. -/
theorem C6_reset_witness :
    applyCall (fun _ => [])
        [{ chunkId := 1, embedding := [], text := [], documentName := "doc" }]
        ApiCall.reset = []
    ∧ resetSources { ok := true, statusText := "OK", body := { message := "done" } }
      = Except.ok () :=
  C6_reset _ _ _ rfl

/-- C7: removing a single source by id issues no backend call and changes
only the local source list: messages, input and storage are untouched, the
empty issued call list leaves any vector collection unchanged, and no call
other than the full reset ever deletes a record from the collection. -/
theorem C7_remove_source_local (st : AppState) (sid : String)
    (ingest : String → List VectorRecord) (c : List VectorRecord)
    (call : ApiCall) (r : VectorRecord) (hc : call ≠ ApiCall.reset) (hr : r ∈ c) :
    (handleRemoveSource st sid).2 = []
    ∧ (handleRemoveSource st sid).1.messages = st.messages
    ∧ (handleRemoveSource st sid).1.inputValue = st.inputValue
    ∧ (handleRemoveSource st sid).1.store = st.store
    ∧ (handleRemoveSource st sid).1.sources = st.sources.filter (fun s => s.id ≠ sid)
    ∧ applyCalls ingest c (handleRemoveSource st sid).2 = c
    ∧ r ∈ applyCall ingest c call := by
  refine ⟨rfl, rfl, rfl, rfl, rfl, rfl, ?_⟩
  cases call with
  | chat req => exact hr
  | upload fileName => exact List.mem_append_left _ hr
  | reset => exact absurd rfl hc

/-- C7 witness: the frame statement at a concrete state, a concrete
non-reset call and a concrete collection record. -/
theorem C7_remove_source_local_witness :
    ApiCall.upload ("a.txt") ≠ ApiCall.reset
    ∧ (handleRemoveSource
        { messages := [], sources := [], inputValue := "", store := [] } ("s1")).2 = []
    ∧ ({ chunkId := 1, embedding := [], text := [], documentName := "doc" } : VectorRecord)
      ∈ applyCall (fun _ => [])
        [{ chunkId := 1, embedding := [], text := [], documentName := "doc" }]
        (ApiCall.upload ("a.txt")) := by
  refine ⟨by decide, ?_, ?_⟩
  · exact (C7_remove_source_local
      { messages := [], sources := [], inputValue := "", store := [] } ("s1")
      (fun _ => [])
      [{ chunkId := 1, embedding := [], text := [], documentName := "doc" }]
      (ApiCall.upload ("a.txt"))
      { chunkId := 1, embedding := [], text := [], documentName := "doc" }
      (by decide) (by decide)).1
  · exact (C7_remove_source_local
      { messages := [], sources := [], inputValue := "", store := [] } ("s1")
      (fun _ => [])
      [{ chunkId := 1, embedding := [], text := [], documentName := "doc" }]
      (ApiCall.upload ("a.txt"))
      { chunkId := 1, embedding := [], text := [], documentName := "doc" }
      (by decide) (by decide)).2.2.2.2.2.2

/-- C9: sending a chat message issues exactly one chat call whose request
is built from the pre-send state: its user_query is the current input, and
its history corresponds one-to-one and in order to the messages displayed
before the current query, each with the USER role mapped to user and every
other role to model and its content wrapped as a one-element parts list;
the current query is therefore never duplicated into the history. -/
theorem C9_request_history (st : AppState) (resp : HttpResponse ChatResponse) (now : Nat)
    (hin : isBlank st.inputValue = false) :
    (handleSendMessage st resp now).2 = [ApiCall.chat (mkChatRequest st)]
    ∧ (mkChatRequest st).user_query = st.inputValue
    ∧ List.Forall₂ (fun msg item =>
        item.role = (if msg.role = Role.USER then ("user") else ("model"))
        ∧ item.parts = [msg.content])
      st.messages (mkChatRequest st).history := by
  refine ⟨by simp [handleSendMessage, hin], rfl, ?_⟩
  exact forall2_map_self _ _ _ (fun m => ⟨rfl, rfl⟩)

/-- C9 witness: the issued request at a concrete state holding one earlier
message and a distinct current input. -/
theorem C9_request_history_witness :
    isBlank ("next question") = false
    ∧ (handleSendMessage
        { messages := [{ id := "1", role := Role.USER, content := "hello", timestamp := 0 }],
          sources := [], inputValue := "next question", store := [] }
        { ok := true, statusText := "OK", body := { response := "ans" } } 3).2
      = [ApiCall.chat (mkChatRequest
          { messages := [{ id := "1", role := Role.USER, content := "hello", timestamp := 0 }],
            sources := [], inputValue := "next question", store := [] })] :=
  ⟨by decide, (C9_request_history
    { messages := [{ id := "1", role := Role.USER, content := "hello", timestamp := 0 }],
      sources := [], inputValue := "next question", store := [] }
    { ok := true, statusText := "OK", body := { response := "ans" } } 3 (by decide)).1⟩

/-- C10: once the user confirms a reset, the local state is always
cleared, even when the backend reset call raises an error: the messages
and sources are emptied, every surviving storage entry is under neither
persisted key, and the resetSources outcome is still propagated unchanged
after the cleanup that the finally block performs. -/
theorem C10_reset_clears_local (st : AppState) (resp : HttpResponse ResetBody)
    (kv : String × String) (hkv : kv ∈ (handleReset st true resp).1.store) :
    (handleReset st true resp).1.messages = []
    ∧ (handleReset st true resp).1.sources = []
    ∧ kv.1 ≠ STORAGE_KEY_MESSAGES
    ∧ kv.1 ≠ STORAGE_KEY_SOURCES
    ∧ (handleReset st true resp).2.2 = resetSources resp := by
  simp only [handleReset, if_pos, List.mem_filter, decide_eq_true_eq] at hkv
  exact ⟨rfl, rfl, hkv.2.1, hkv.2.2, rfl⟩

/-- C10 witness: the clearing statement at a concrete state whose storage
holds a persisted key and an unrelated key, with a failing backend
response; the surviving entry is the unrelated one. -/
theorem C10_reset_clears_local_witness :
    (("nanobook_theme", "dark"))
      ∈ (handleReset
          { messages := [{ id := "1", role := Role.USER, content := "hello", timestamp := 0 }],
            sources := [], inputValue := "",
            store := [(STORAGE_KEY_MESSAGES, "saved"), ("nanobook_theme", "dark")] }
          true
          { ok := false, statusText := "Internal Server Error", body := { message := "" } }).1.store
    ∧ (handleReset
          { messages := [{ id := "1", role := Role.USER, content := "hello", timestamp := 0 }],
            sources := [], inputValue := "",
            store := [(STORAGE_KEY_MESSAGES, "saved"), ("nanobook_theme", "dark")] }
          true
          { ok := false, statusText := "Internal Server Error", body := { message := "" } }).1.messages
      = [] := by
  refine ⟨by decide, ?_⟩
  exact (C10_reset_clears_local
    { messages := [{ id := "1", role := Role.USER, content := "hello", timestamp := 0 }],
      sources := [], inputValue := "",
      store := [(STORAGE_KEY_MESSAGES, "saved"), ("nanobook_theme", "dark")] }
    { ok := false, statusText := "Internal Server Error", body := { message := "" } }
    (("nanobook_theme", "dark")) (by decide)).1

end NanoBook
